import Mathlib

/-!
Verification of the Adapter Studio CLI (`adapter_cli`), a command-line
front end that configures, discovers and invokes an external adapter
training toolkit.

The Python modules are shallowly embedded:
* the filesystem is a structure of query functions (`pathExists`,
  `isDir`, `isFile`, `readable`, `children`) over paths represented as
  lists of components;
* `mkdir(parents=True, exist_ok=True)` is an explicit update of those
  query functions;
* the single JSON config file is a state (`ConfigFile`) that is either
  absent, holds a decodable JSON document, or holds undecodable text
  (the case in which `json.load` raises `JSONDecodeError`);
* a subprocess run is an environment-supplied outcome (`SubprocOutcome`);
* command functions return their Python value (`None` or an int) plus
  the visible effects the claims are about (the constructed argument
  list, the directory removed by `shutil.rmtree`, if any).
-/

namespace AdapterStudio

/-- A filesystem path, as its list of components from the root. -/
abbrev FPath := List String

/-- Read-only view of the filesystem used by the CLI: `Path.exists`,
`Path.is_dir`, `Path.is_file`, `os.access(·, os.R_OK)`, and the entry
names produced by `Path.iterdir` (in iteration order). -/
structure FS where
  pathExists : FPath → Bool
  isDir : FPath → Bool
  isFile : FPath → Bool
  readable : FPath → Bool
  children : FPath → List String

/-- `p.mkdir(parents=True, exist_ok=True)`: afterwards every prefix of
`p` exists and is a directory; everything else is unchanged. -/
def FS.mkdirp (fs : FS) (p : FPath) : FS :=
  { fs with
    pathExists := fun q => fs.pathExists q || q.isPrefixOf p
    isDir := fun q => fs.isDir q || q.isPrefixOf p }

/-- Rendering of a path by `str(...)` (absolute paths throughout). -/
def showPath (p : FPath) : String :=
  "/" ++ String.intercalate "/" p

/-- Splits a character stream at `/`, accumulating the current
component reversed; empty components are dropped. -/
def pathComponents : List Char → List Char → FPath
  | [], acc => if acc.isEmpty then [] else [String.mk acc.reverse]
  | c :: rest, acc =>
    if c = '/' then
      (if acc.isEmpty then [] else [String.mk acc.reverse]) ++ pathComponents rest []
    else pathComponents rest (c :: acc)

/-- `Path(s)` on an absolute path string: split into components. -/
def parsePath (s : String) : FPath :=
  pathComponents s.data []

/-- Python `pat in s` (substring test). -/
def containsSubstr (s pat : String) : Bool :=
  decide (pat.data <:+: s.data)

/-! ## validator.py -/

def REQUIRED_DIRS : List String := ["assets", "examples", "export"]

def REQUIRED_FILES : List String := ["requirements.txt"]

def REQUIRED_ASSETS : List String :=
  ["base-model.pt", "tokenizer.model", "checkpoint_spec.yaml"]

/-- Errors appended by the `for dir_name in REQUIRED_DIRS` loop of
`validate_toolkit`. -/
def dirErrors (fs : FS) (toolkit_path : FPath) : List String :=
  REQUIRED_DIRS.foldr
    (fun dir_name acc =>
      (if fs.pathExists (toolkit_path ++ [dir_name]) = false then
        ["Missing directory: " ++ dir_name ++ "/"]
      else if fs.isDir (toolkit_path ++ [dir_name]) = false then
        [dir_name ++ "/ exists but is not a directory"]
      else []) ++ acc) []

/-- Errors appended by the `for file_name in REQUIRED_FILES` loop of
`validate_toolkit`. -/
def fileErrors (fs : FS) (toolkit_path : FPath) : List String :=
  REQUIRED_FILES.foldr
    (fun file_name acc =>
      (if fs.pathExists (toolkit_path ++ [file_name]) = false then
        ["Missing file: " ++ file_name]
      else []) ++ acc) []

/-- Errors appended by the `for asset_name in REQUIRED_ASSETS` loop of
`validate_toolkit`; the whole loop is guarded by `assets_path.exists()`. -/
def assetErrors (fs : FS) (toolkit_path : FPath) : List String :=
  if fs.pathExists (toolkit_path ++ ["assets"]) then
    REQUIRED_ASSETS.foldr
      (fun asset_name acc =>
        (if fs.pathExists (toolkit_path ++ ["assets", asset_name]) = false then
          ["Missing asset: assets/" ++ asset_name]
        else []) ++ acc) []
  else []

/-- `validate_toolkit(toolkit_path)` from `validator.py`: returns
`(is_valid, list_of_errors)`. -/
def validate_toolkit (fs : FS) (toolkit_path : FPath) : Bool × List String :=
  if fs.pathExists toolkit_path = false then
    (false, ["Toolkit path does not exist: " ++ showPath toolkit_path])
  else if fs.isDir toolkit_path = false then
    (false, ["Toolkit path is not a directory: " ++ showPath toolkit_path])
  else
    let errors := dirErrors fs toolkit_path ++ fileErrors fs toolkit_path
      ++ assetErrors fs toolkit_path
    (errors.isEmpty, errors)

/-! ## discovery.py -/

/-- The fixed candidate roots (`Path.home()` is the `home` parameter). -/
def COMMON_LOCATIONS (home : FPath) : List FPath :=
  [home ++ ["Downloads"], home ++ ["adapter-toolkit"], ["opt", "adapter-toolkit"]]

/-- The `"adapter_training_toolkit" in subdir.name or "adapter-toolkit" in
subdir.name` test of `find_toolkit`. -/
def nameMatches (name : String) : Bool :=
  containsSubstr name "adapter_training_toolkit" || containsSubstr name "adapter-toolkit"

/-- One iteration of the `for subdir in location.iterdir()` loop of
`find_toolkit`: `some` means the loop `return`s this path. -/
def subdirCandidate (fs : FS) (location : FPath) (name : String) : Option FPath :=
  if fs.isDir (location ++ [name]) = false then none
  else if nameMatches name then
    if (validate_toolkit fs (location ++ [name])).1 then some (location ++ [name])
    else none
  else none

/-- One iteration of the `for location in COMMON_LOCATIONS` loop of
`find_toolkit`. -/
def findInLocation (fs : FS) (location : FPath) : Option FPath :=
  if fs.pathExists location = false then none
  else if (validate_toolkit fs location).1 then some location
  else if fs.isDir location then
    (fs.children location).findSome? (subdirCandidate fs location)
  else none

/-- `find_toolkit()` from `discovery.py`. -/
def find_toolkit (fs : FS) (home : FPath) : Option FPath :=
  (COMMON_LOCATIONS home).findSome? (findInLocation fs)

/-- The candidate order the specification describes: each existing
candidate root itself, followed by its immediate subdirectories whose
name contains one of the two fixed toolkit-name substrings. -/
def candidatesAt (fs : FS) (location : FPath) : List FPath :=
  if fs.pathExists location = false then []
  else
    location ::
      (if fs.isDir location then
        ((fs.children location).filter
          (fun n => fs.isDir (location ++ [n]) && nameMatches n)).map
          (fun n => location ++ [n])
      else [])

/-- All candidates, in scan order. -/
def candidates (fs : FS) (home : FPath) : List FPath :=
  (COMMON_LOCATIONS home).foldr (fun loc acc => candidatesAt fs loc ++ acc) []

theorem findSome_subdir_eq (fs : FS) (loc : FPath) (names : List String) :
    names.findSome? (subdirCandidate fs loc) =
      ((names.filter (fun n => fs.isDir (loc ++ [n]) && nameMatches n)).map
        (fun n => loc ++ [n])).find? (fun c => (validate_toolkit fs c).1) := by
  induction names with
  | nil => rfl
  | cons n rest ih =>
    rw [List.findSome?_cons]
    by_cases h1 : fs.isDir (loc ++ [n])
    · by_cases h2 : nameMatches n
      · by_cases h3 : (validate_toolkit fs (loc ++ [n])).1
        · simp [subdirCandidate, h1, h2, h3]
        · simp [subdirCandidate, h1, h2, h3, ih]
      · simp [subdirCandidate, h1, h2, ih]
    · simp [subdirCandidate, h1, ih]

theorem findInLocation_eq (fs : FS) (loc : FPath) :
    findInLocation fs loc =
      (candidatesAt fs loc).find? (fun c => (validate_toolkit fs c).1) := by
  unfold findInLocation candidatesAt
  by_cases h1 : fs.pathExists loc
  · by_cases h2 : (validate_toolkit fs loc).1
    · simp [h1, h2]
    · by_cases h3 : fs.isDir loc
      · simp [h1, h2, h3, findSome_subdir_eq]
      · simp [h1, h2, h3]
  · simp [h1]

/-! ## config.py

The config file is the single piece of persistent state.  Its content is
modeled as parsed: `json.dump` always emits a document that `json.load`
decodes back to the same string-keyed mapping, so the file either is
absent, holds the serialization of a mapping, or holds text on which
`json.load` raises `JSONDecodeError`. -/

/-- JSON values as `json.dump`/`json.load` exchange them.  Numbers are
modeled as integers; the only value this program ever writes is a path
string. -/
inductive Json where
  | null
  | bool (b : Bool)
  | num (n : Int)
  | str (s : String)
  | arr (elems : List Json)
  | obj (fields : List (String × Json))

/-- A Python dict about to be serialized: an insertion-ordered,
string-keyed mapping. -/
abbrev ConfigMap := List (String × Json)

/-- State of `CONFIG_FILE` (`~/.adapter-studio/config.json`). -/
inductive ConfigFile where
  | absent
  | valid (config : ConfigMap)
  | corrupt (raw : String)

/-- `load_config()`: the mapping returned, together with the state of
the file afterwards (a corrupt file is unlinked and a warning printed). -/
def load_config : ConfigFile → ConfigMap × ConfigFile
  | .absent => ([], .absent)
  | .valid config => (config, .valid config)
  | .corrupt _ => ([], .absent)

/-- `save_config(config)`: `json.dump` the mapping to a temp file in the
config directory, then atomically `os.replace` it over `CONFIG_FILE`,
whatever that held before. -/
def save_config (config : ConfigMap) (_file : ConfigFile) : ConfigFile :=
  .valid config

/-- `get_toolkit_path()`: `load_config().get("toolkit_path")`, wrapped
in `Path` when truthy.  The program only ever stores a string under
this key (`set_toolkit_path` writes `str(...)`). -/
def get_toolkit_path (f : ConfigFile) : Option String :=
  match (load_config f).1.lookup "toolkit_path" with
  | some (Json.str s) => if s = "" then none else some s
  | _ => none

/-! ## Shared command machinery (`commands/*.py`) -/

/-- Value a command function returns to `main`: Python `None` (a bare
`return`) or an integer. -/
inductive PyVal where
  | none
  | int (n : Int)
deriving DecidableEq

/-- Outcome of one `subprocess.run(cmd, cwd=..., timeout=...)` call,
supplied by the environment: normal completion with a return code, or
one of the exceptions the commands catch. -/
inductive SubprocOutcome where
  | completed (returncode : Int)
  | timedOut
  | interrupted
  | fileNotFound
  | permissionDenied
  | osError
  | otherError
deriving DecidableEq

/-- Environment a command runs in: the config file, the filesystem, and
the resolution function `Path(s).expanduser().resolve()`. -/
structure Env where
  cfg : ConfigFile
  fs : FS
  resolve : String → FPath

/-- What a command did: printed an error and returned `None`, or built a
subprocess argument list and ran it, returning `ret`. -/
inductive CmdOutcome where
  | errored (msg : String)
  | ran (cmd : List String) (ret : PyVal)

/-- The command's Python return value. -/
def retvalOf : CmdOutcome → PyVal
  | .errored _ => .none
  | .ran _ ret => ret

/-! ## commands/export.py -/

/-- Arguments of the `export` subcommand.  An optional flag that was not
supplied is the empty string, which is exactly what the code's Python
truthiness tests distinguish. -/
structure ExportArgs where
  adapter_name : String
  checkpoint : String
  draft_checkpoint : String
  output_dir : String
  author : String
  description : String

/-- A character matched by `\w` (modeled over ASCII: letters, digits and
underscore; the adapter names in play are ASCII). -/
def isWordChar (c : Char) : Bool := c.isAlphanum || c = '_'

/-- Truthiness of `re.match(r"^\w+$", name)`: one or more word
characters, where Python's `$` also matches just before a newline that
ends the string (so a single trailing newline is tolerated). -/
def reMatchWordAnchored (name : String) : Bool :=
  let core : List Char := match name.data.getLast? with
    | some '\n' => name.data.dropLast
    | _ => name.data
  !core.isEmpty && core.all isWordChar

/-- `_validate_adapter_name(name)` from `commands/export.py`:
`len(name)` is the number of characters. -/
def _validate_adapter_name (name : String) : Bool :=
  if name = "" ∨ name.data.length > 255 then false
  else reMatchWordAnchored name

/-- `run_export(args)` from `commands/export.py`, relative to an
environment and the outcome of the subprocess were it run. -/
def run_export (env : Env) (sp : SubprocOutcome) (args : ExportArgs) : CmdOutcome :=
  match get_toolkit_path env.cfg with
  | Option.none => .errored "Toolkit not configured. Run 'adapter-studio init' first."
  | Option.some tkStr =>
    let toolkit_path := parsePath tkStr
    let venv_python := toolkit_path ++ ["venv", "bin", "python"]
    if env.fs.pathExists venv_python = false then
      .errored "Virtual environment not set up. Run 'adapter-studio setup' first."
    else if args.adapter_name = "" then
      .errored "--adapter-name is required"
    else if _validate_adapter_name args.adapter_name = false then
      .errored "--adapter-name must contain only letters, numbers, and underscores (1-255 chars)"
    else if args.checkpoint = "" then
      .errored "--checkpoint is required"
    else if args.output_dir = "" then
      .errored "--output-dir is required"
    else
      let checkpoint := env.resolve args.checkpoint
      if env.fs.pathExists checkpoint = false then
        .errored "Checkpoint not found"
      else
        let output_dir := env.resolve args.output_dir
        let fs2 := env.fs.mkdirp output_dir
        let draft_checkpoint : Option FPath :=
          if args.draft_checkpoint != "" then some (env.resolve args.draft_checkpoint)
          else none
        let draftMissing := match draft_checkpoint with
          | some d => !(fs2.pathExists d)
          | none => false
        if draftMissing then
          .errored "Draft checkpoint not found"
        else
          let cmd := [showPath venv_python, "-m", "export.export_fmadapter",
              "--adapter-name", args.adapter_name,
              "--checkpoint", showPath checkpoint,
              "--output-dir", showPath output_dir]
            ++ (match draft_checkpoint with
                | some d => ["--draft-checkpoint", showPath d]
                | none => [])
            ++ (if args.author != "" then ["--author", args.author] else [])
            ++ (if args.description != "" then ["--description", args.description] else [])
          .ran cmd (match sp with
            | .completed rc => .int rc
            | _ => .int 1)

/-! ## commands/generate.py and the exit-code handling of `__main__.py` -/

/-- Arguments of the `generate` subcommand.  The numeric generation
options only flow into the argument list via `str(...)`; they are
carried as their rendered tokens (`none` models Python `None`). -/
structure GenerateArgs where
  prompt : String
  checkpoint : String
  draft_checkpoint : String
  precision : String
  temperature : Option String
  top_k : Option String
  max_new_tokens : Option String
  batch_size : Option String
  compile_model : Bool
  num_draft_tokens : Option String

/-- `run_generate(args)` from `commands/generate.py`.  Note that unlike
`run_export` it wraps checkpoint arguments in `Path(...)` without
`expanduser().resolve()`. -/
def run_generate (env : Env) (sp : SubprocOutcome) (args : GenerateArgs) : CmdOutcome :=
  match get_toolkit_path env.cfg with
  | Option.none => .errored "Toolkit not configured. Run 'adapter-studio init' first."
  | Option.some tkStr =>
    let toolkit_path := parsePath tkStr
    let venv_python := toolkit_path ++ ["venv", "bin", "python"]
    if env.fs.pathExists venv_python = false then
      .errored "Virtual environment not set up. Run 'adapter-studio setup' first."
    else if args.prompt = "" then
      .errored "--prompt is required"
    else
      let checkpoint : Option FPath :=
        if args.checkpoint != "" then some (parsePath args.checkpoint) else none
      let ckMissing := match checkpoint with
        | some c => !(env.fs.pathExists c)
        | none => false
      if ckMissing then
        .errored "Checkpoint not found"
      else
        let draft_checkpoint : Option FPath :=
          if args.draft_checkpoint != "" then some (parsePath args.draft_checkpoint)
          else none
        let draftMissing := match draft_checkpoint with
          | some d => !(env.fs.pathExists d)
          | none => false
        if draftMissing then
          .errored "Draft checkpoint not found"
        else
          let cmd := [showPath venv_python, "-m", "examples.generate",
              "--prompt", args.prompt]
            ++ (match checkpoint with
                | some c => ["--checkpoint", showPath c]
                | none => [])
            ++ (match draft_checkpoint with
                | some d => ["--draft-checkpoint", showPath d]
                | none => [])
            ++ (if args.precision != "" then ["--precision", args.precision] else [])
            ++ (match args.temperature with
                | some t => ["--temperature", t] | none => [])
            ++ (match args.top_k with
                | some v => ["--top-k", v] | none => [])
            ++ (match args.max_new_tokens with
                | some v => ["--max-new-tokens", v] | none => [])
            ++ (match args.batch_size with
                | some v => ["--batch-size", v] | none => [])
            ++ (if args.compile_model then ["--compile-model"] else [])
            ++ (match args.num_draft_tokens with
                | some v => ["--num_draft_tokens", v] | none => [])
          .ran cmd (match sp with
            | .completed rc => .int rc
            | _ => .int 1)

/-- Python `exit_code != 0` in `main`: `None != 0` is `True`. -/
def pyNeZero : PyVal → Bool
  | .none => true
  | .int n => n != 0

/-- Exit status produced by `sys.exit(exit_code)`: `sys.exit(None)`
terminates the process with status 0, `sys.exit(n)` with status `n`. -/
def sysExitStatus : PyVal → Int
  | .none => 0
  | .int n => n

/-- The tail of `main()` in `__main__.py`: `if exit_code != 0:
sys.exit(exit_code)`, and falling off the end of `main` exits with
status 0. -/
def mainExitStatus (exit_code : PyVal) : Int :=
  if pyNeZero exit_code then sysExitStatus exit_code else 0

/-- Exit status of the whole process for `adapter-studio generate ...`. -/
def main_generate (env : Env) (sp : SubprocOutcome) (args : GenerateArgs) : Int :=
  mainExitStatus (retvalOf (run_generate env sp args))

/-! ## commands/train_adapter.py -/

/-- Arguments of the `train-adapter` subcommand.  Integer options that
the code compares numerically are integers; float options are rationals
(Python floats never hit a rounding issue in the comparisons performed:
only `<= 0` is tested); options the code only passes through via
`str(...)` are carried as their rendered tokens. -/
structure TrainArgs where
  demo : Bool
  train_data : String
  eval_data : String
  checkpoint_dir : String
  epochs : Int
  learning_rate : Rat
  warmup_epochs : Int
  batch_size : Int
  gradient_accumulation_steps : Option String
  activation_checkpointing : Bool
  precision : String
  compile_model : Bool
  weight_decay : Option String
  clip_grad_norm : Option String
  max_sequence_length : Option String
  fixed_sized_sequences : Bool
  pack_sequences : Bool
  loss_update_frequency : Option String
  checkpoint_frequency : Option String

/-- What `run_train_adapter` did: its Python return value, the argument
list it ran (if it got that far), and the directory it passed to
`shutil.rmtree` (if any). -/
structure TrainOutcome where
  ret : PyVal
  cmd : Option (List String)
  removed : Option FPath

/-- An early `return` after printing an error: no subprocess, no
cleanup, Python return value `None`. -/
def trainAbort : TrainOutcome := ⟨.none, Option.none, Option.none⟩

/-- Lines 105-196 of `commands/train_adapter.py`, shared by demo and
custom mode: build the argument list, run the subprocess, and on a
non-zero exit / timeout / keyboard interrupt remove the checkpoint
directory when `created_checkpoint_dir` is set.  The decimal rendering
of float hyperparameters inside the argument list is abstracted by the
rational's `toString`. -/
def trainFinish (args : TrainArgs) (sp : SubprocOutcome) (venv_python : FPath)
    (train_data : FPath) (eval_data : Option FPath) (checkpoint_dir : FPath)
    (created_checkpoint_dir : Bool) : TrainOutcome :=
  let cmd := [showPath venv_python, "-m", "examples.train_adapter",
      "--train-data", showPath train_data]
    ++ (match eval_data with
        | some e => ["--eval-data", showPath e] | none => [])
    ++ ["--checkpoint-dir", showPath checkpoint_dir,
      "--epochs", toString args.epochs,
      "--learning-rate", toString args.learning_rate,
      "--batch-size", toString args.batch_size,
      "--precision", args.precision,
      -- `args.warmup_epochs is not None` is always true (argparse
      -- supplies an int default)
      "--warmup-epochs", toString args.warmup_epochs]
    ++ (match args.gradient_accumulation_steps with
        | some v => ["--gradient-accumulation-steps", v] | none => [])
    ++ (match args.weight_decay with
        | some v => ["--weight-decay", v] | none => [])
    ++ (match args.clip_grad_norm with
        | some v => ["--clip-grad-norm", v] | none => [])
    ++ (match args.max_sequence_length with
        | some v => ["--max-sequence-length", v] | none => [])
    ++ (match args.loss_update_frequency with
        | some v => ["--loss-update-frequency", v] | none => [])
    ++ (match args.checkpoint_frequency with
        | some v => ["--checkpoint-frequency", v] | none => [])
    ++ (if args.activation_checkpointing then ["--activation-checkpointing"] else [])
    ++ (if args.compile_model then ["--compile-model"] else [])
    ++ (if args.fixed_sized_sequences then ["--fixed-sized-sequences"] else [])
    ++ (if args.pack_sequences then ["--pack-sequences"] else [])
  let cleanup : Option FPath :=
    if created_checkpoint_dir then some checkpoint_dir else Option.none
  match sp with
  | .completed rc =>
    if rc = 0 then ⟨.int rc, some cmd, Option.none⟩
    else ⟨.int rc, some cmd, cleanup⟩
  | .timedOut => ⟨.int 1, some cmd, cleanup⟩
  | .interrupted => ⟨.int 1, some cmd, cleanup⟩
  -- FileNotFoundError / PermissionError / OSError / Exception handlers
  -- do not clean up
  | _ => ⟨.int 1, some cmd, Option.none⟩

/-- `run_train_adapter(args)` from `commands/train_adapter.py`, relative
to an environment, the `datetime.now()` timestamp string, and the
outcome of the training subprocess were it run. -/
def run_train_adapter (env : Env) (timestamp : String) (sp : SubprocOutcome)
    (args : TrainArgs) : TrainOutcome :=
  if args.epochs < 1 ∨ args.epochs > 100 then trainAbort
  else if args.learning_rate ≤ 0 then trainAbort
  else if args.batch_size < 1 ∨ args.batch_size > 128 then trainAbort
  else if args.warmup_epochs < 0 ∨ args.warmup_epochs > args.epochs then trainAbort
  else match get_toolkit_path env.cfg with
  | Option.none => trainAbort
  | Option.some tkStr =>
    let toolkit_path := parsePath tkStr
    let venv_python := toolkit_path ++ ["venv", "bin", "python"]
    if env.fs.pathExists venv_python = false then trainAbort
    else
      if args.demo then
        let toy_dataset_path := toolkit_path ++ ["examples", "toy_dataset"]
        let train_data := toy_dataset_path ++ ["playwriting_train.jsonl"]
        let eval_data := toy_dataset_path ++ ["playwriting_valid.jsonl"]
        if env.fs.pathExists train_data = false ∨ env.fs.pathExists eval_data = false then
          trainAbort
        else
          let checkpoint_dir := toolkit_path ++ ["checkpoints", "demo_" ++ timestamp]
          trainFinish args sp venv_python train_data (some eval_data) checkpoint_dir true
      else
        if args.train_data = "" then trainAbort
        else if args.checkpoint_dir = "" then trainAbort
        else
          let train_data := env.resolve args.train_data
          if env.fs.pathExists train_data = false then trainAbort
          else if env.fs.isFile train_data = false ∨ env.fs.readable train_data = false then
            trainAbort
          else
            let checkpoint_dir := env.resolve args.checkpoint_dir
            let checkpoint_dir_existed := env.fs.pathExists checkpoint_dir
            let fs2 := env.fs.mkdirp checkpoint_dir
            let created_checkpoint_dir := !checkpoint_dir_existed
            let eval_data : Option FPath :=
              if args.eval_data != "" then some (env.resolve args.eval_data)
              else none
            let evalMissing := match eval_data with
              | some e => !(fs2.pathExists e)
              | none => false
            if evalMissing then trainAbort
            else
              let evalUnreadable := match eval_data with
                | some e => !(fs2.isFile e) || !(fs2.readable e)
                | none => false
              if evalUnreadable then trainAbort
              else trainFinish args sp venv_python train_data eval_data checkpoint_dir
                created_checkpoint_dir

/-! Concrete filesystems used to witness the theorems below. -/

/-- A filesystem holding exactly the given directories and files. -/
def fsOf (dirs files : List FPath) : FS :=
  { pathExists := fun p => dirs.contains p || files.contains p
    isDir := fun p => dirs.contains p
    isFile := fun p => files.contains p
    readable := fun p => files.contains p
    children := fun _ => [] }

/-- A single empty directory `/tk` and nothing else. -/
def fsBareDir : FS := fsOf [["tk"]] []

/-- A toolkit at `/tk` with its venv python, a checkpoint file `/ck`,
and an output directory `/out`. -/
def fsWithVenv : FS :=
  fsOf [["tk"], ["tk", "venv"], ["tk", "venv", "bin"], ["out"]]
    [["tk", "venv", "bin", "python"], ["ck"]]

/-- Environment with the toolkit configured at `/tk`. -/
def envConfigured : Env :=
  { cfg := .valid [("toolkit_path", Json.str "/tk")]
    fs := fsWithVenv
    resolve := parsePath }

/-- Environment in which the toolkit was never configured. -/
def envUnconfigured : Env :=
  { cfg := .absent, fs := fsOf [] [], resolve := parsePath }

/-- A complete toolkit unpacked inside `~/Downloads`. -/
def tkUnpacked : FPath := ["home", "Downloads", "adapter_training_toolkit_v26_0_0"]

/-- Filesystem with a complete toolkit at `tkUnpacked`, next to an
unrelated file in `Downloads`. -/
def fsDownloads : FS :=
  { pathExists := fun p =>
      [["home"], ["home", "Downloads"], tkUnpacked, tkUnpacked ++ ["assets"],
        tkUnpacked ++ ["examples"], tkUnpacked ++ ["export"]].contains p ||
      [tkUnpacked ++ ["requirements.txt"], tkUnpacked ++ ["assets", "base-model.pt"],
        tkUnpacked ++ ["assets", "tokenizer.model"],
        tkUnpacked ++ ["assets", "checkpoint_spec.yaml"],
        ["home", "Downloads", "notes.txt"]].contains p
    isDir := fun p =>
      [["home"], ["home", "Downloads"], tkUnpacked, tkUnpacked ++ ["assets"],
        tkUnpacked ++ ["examples"], tkUnpacked ++ ["export"]].contains p
    isFile := fun _ => false
    readable := fun _ => false
    children := fun p =>
      if p = ["home", "Downloads"] then
        ["notes.txt", "adapter_training_toolkit_v26_0_0"]
      else [] }

example : validate_toolkit fsDownloads tkUnpacked = (true, []) := by decide

example : find_toolkit fsDownloads ["home"] = some tkUnpacked := by decide

example : (validate_toolkit fsBareDir ["tk"]).2 =
    ["Missing directory: assets/", "Missing directory: examples/",
     "Missing directory: export/", "Missing file: requirements.txt"] := by decide

example : validate_toolkit fsBareDir ["nope"] =
    (false, ["Toolkit path does not exist: /nope"]) := by decide

/-- C8: `validate_toolkit` returns `is_valid = true` exactly when the
error list is empty. -/
theorem validate_toolkit_valid_iff_no_errors (fs : FS) (p : FPath) :
    (validate_toolkit fs p).1 = true ↔ (validate_toolkit fs p).2 = [] := by
  unfold validate_toolkit
  split_ifs <;> simp

/-- C8 witness. -/
theorem validate_toolkit_valid_iff_no_errors_witness :
    ((validate_toolkit fsBareDir ["tk"]).1 = true ↔
      (validate_toolkit fsBareDir ["tk"]).2 = []) :=
  validate_toolkit_valid_iff_no_errors fsBareDir ["tk"]

/-- C5: on an existing directory whose `assets` subdirectory does not
exist, `validate_toolkit` returns `false` together with a non-empty
error list containing an error that mentions `assets`. -/
theorem validate_toolkit_missing_assets (fs : FS) (p : FPath)
    (hex : fs.pathExists p = true) (hdir : fs.isDir p = true)
    (hassets : fs.pathExists (p ++ ["assets"]) = false) :
    (validate_toolkit fs p).1 = false ∧ (validate_toolkit fs p).2 ≠ [] ∧
      ∃ e ∈ (validate_toolkit fs p).2, containsSubstr e "assets" = true := by
  unfold validate_toolkit
  rw [if_neg (by simp [hex]), if_neg (by simp [hdir])]
  simp only [dirErrors, fileErrors, assetErrors,
    REQUIRED_DIRS, REQUIRED_FILES, REQUIRED_ASSETS,
    List.foldr_cons, List.foldr_nil]
  rw [if_neg (show ¬(fs.pathExists (p ++ ["assets"]) = true) by simp [hassets]),
    if_pos hassets]
  refine ⟨by simp, by simp, "Missing directory: assets/", by simp, by decide⟩

/-- C5 witness. -/
theorem validate_toolkit_missing_assets_witness :
    (validate_toolkit fsBareDir ["tk"]).1 = false ∧
      (validate_toolkit fsBareDir ["tk"]).2 ≠ [] ∧
      ∃ e ∈ (validate_toolkit fsBareDir ["tk"]).2,
        containsSubstr e "assets" = true :=
  validate_toolkit_missing_assets fsBareDir ["tk"] (by decide) (by decide) (by decide)

/-- C9: when the toolkit directory exists but its `assets` subdirectory
does not, the per-asset checks are skipped: the error list contains
`Missing directory: assets/` but no error mentioning any of the three
required asset filenames. -/
theorem validate_toolkit_no_asset_errors_without_assets_dir (fs : FS) (p : FPath)
    (hex : fs.pathExists p = true) (hdir : fs.isDir p = true)
    (hassets : fs.pathExists (p ++ ["assets"]) = false) :
    "Missing directory: assets/" ∈ (validate_toolkit fs p).2 ∧
      ∀ e ∈ (validate_toolkit fs p).2,
        containsSubstr e "base-model.pt" = false ∧
        containsSubstr e "tokenizer.model" = false ∧
        containsSubstr e "checkpoint_spec.yaml" = false := by
  unfold validate_toolkit
  rw [if_neg (by simp [hex]), if_neg (by simp [hdir])]
  simp only [dirErrors, fileErrors, assetErrors,
    REQUIRED_DIRS, REQUIRED_FILES, REQUIRED_ASSETS,
    List.foldr_cons, List.foldr_nil]
  rw [if_neg (show ¬(fs.pathExists (p ++ ["assets"]) = true) by simp [hassets]),
    if_pos hassets]
  split_ifs <;> decide

/-- C9 witness. -/
theorem validate_toolkit_no_asset_errors_without_assets_dir_witness :
    "Missing directory: assets/" ∈ (validate_toolkit fsBareDir ["tk"]).2 ∧
      ∀ e ∈ (validate_toolkit fsBareDir ["tk"]).2,
        containsSubstr e "base-model.pt" = false ∧
        containsSubstr e "tokenizer.model" = false ∧
        containsSubstr e "checkpoint_spec.yaml" = false :=
  validate_toolkit_no_asset_errors_without_assets_dir fsBareDir ["tk"]
    (by decide) (by decide) (by decide)

theorem findSome_locations_eq (fs : FS) (locs : List FPath) :
    locs.findSome? (findInLocation fs) =
      (locs.foldr (fun loc acc => candidatesAt fs loc ++ acc) []).find?
        (fun c => (validate_toolkit fs c).1) := by
  induction locs with
  | nil => rfl
  | cons l rest ih =>
    rw [List.findSome?_cons, List.foldr_cons, List.find?_append, findInLocation_eq, ih]
    cases (candidatesAt fs l).find? (fun c => (validate_toolkit fs c).1) <;> simp

/-- C4: `find_toolkit` returns exactly the first candidate that passes
`validate_toolkit`, where the candidates are, in order: each existing
candidate root itself, then its immediate subdirectories whose name
contains one of the fixed toolkit-name substrings; and it returns `none`
when no candidate passes, in particular when no candidate root exists. -/
theorem find_toolkit_first_passing (fs : FS) (home : FPath) :
    find_toolkit fs home =
        (candidates fs home).find? (fun c => (validate_toolkit fs c).1) ∧
      ((∀ l ∈ COMMON_LOCATIONS home, fs.pathExists l = false) →
        find_toolkit fs home = none) := by
  have h := findSome_locations_eq fs (COMMON_LOCATIONS home)
  refine ⟨h, fun hnone => ?_⟩
  unfold find_toolkit COMMON_LOCATIONS at *
  simp only [List.mem_cons, List.not_mem_nil] at hnone
  rw [h]
  simp [candidatesAt, hnone]

/-- C4 witness: on an empty filesystem no candidate root exists and
`find_toolkit` returns `none`. -/
theorem find_toolkit_first_passing_witness :
    find_toolkit (fsOf [] []) ["home"] = none :=
  (find_toolkit_first_passing (fsOf [] []) ["home"]).2 (by decide)

/-- C2: saving any mapping and then loading yields exactly that mapping
back, whatever the config file held before. -/
theorem save_then_load_roundtrip (config : ConfigMap) (file : ConfigFile) :
    (load_config (save_config config file)).1 = config := rfl

/-- C3: loading a corrupt config file returns the empty mapping and
deletes the file, so the second and every subsequent load also finds it
absent and returns the empty mapping. -/
theorem load_config_corrupt_resets (raw : String) :
    load_config (.corrupt raw) = ([], .absent) ∧
      load_config (load_config (ConfigFile.corrupt raw)).2 = ([], .absent) :=
  ⟨rfl, rfl⟩

/-- Adjacent flag/value pairs inside the export argument list. -/
theorem export_cmd_pairs_infix (v a c o : String) (rest : List String) :
    ["--adapter-name", a] <:+:
        ([v, "-m", "export.export_fmadapter", "--adapter-name", a,
          "--checkpoint", c, "--output-dir", o] ++ rest) ∧
      ["--checkpoint", c] <:+:
        ([v, "-m", "export.export_fmadapter", "--adapter-name", a,
          "--checkpoint", c, "--output-dir", o] ++ rest) ∧
      ["--output-dir", o] <:+:
        ([v, "-m", "export.export_fmadapter", "--adapter-name", a,
          "--checkpoint", c, "--output-dir", o] ++ rest) :=
  ⟨⟨[v, "-m", "export.export_fmadapter"],
    ["--checkpoint", c, "--output-dir", o] ++ rest, by simp⟩,
   ⟨[v, "-m", "export.export_fmadapter", "--adapter-name", a],
    ["--output-dir", o] ++ rest, by simp⟩,
   ⟨[v, "-m", "export.export_fmadapter", "--adapter-name", a, "--checkpoint", c],
    rest, by simp⟩⟩

/-- C6: with the toolkit configured, its venv python present, a valid
adapter name, supplied checkpoint and output-dir flags, an existing
resolved checkpoint and (if supplied) an existing draft checkpoint,
`run_export` builds and runs an argument list containing the adjacent
pairs `--adapter-name <name>`, `--checkpoint <resolved checkpoint>` and
`--output-dir <resolved output dir>`. -/
theorem run_export_builds_flag_pairs (env : Env) (sp : SubprocOutcome)
    (args : ExportArgs) (tkStr : String)
    (htk : get_toolkit_path env.cfg = some tkStr)
    (hvenv : env.fs.pathExists (parsePath tkStr ++ ["venv", "bin", "python"]) = true)
    (hname : _validate_adapter_name args.adapter_name = true)
    (hck : args.checkpoint ≠ "")
    (hout : args.output_dir ≠ "")
    (hckex : env.fs.pathExists (env.resolve args.checkpoint) = true)
    (hdraft : args.draft_checkpoint = "" ∨
      (env.fs.mkdirp (env.resolve args.output_dir)).pathExists
        (env.resolve args.draft_checkpoint) = true) :
    ∃ cmd ret, run_export env sp args = .ran cmd ret ∧
      ["--adapter-name", args.adapter_name] <:+: cmd ∧
      ["--checkpoint", showPath (env.resolve args.checkpoint)] <:+: cmd ∧
      ["--output-dir", showPath (env.resolve args.output_dir)] <:+: cmd := by
  have hnameNe : ¬(args.adapter_name = "") := by
    intro h
    rw [h] at hname
    exact absurd hname (by decide)
  unfold run_export
  rw [htk]
  by_cases hd : args.draft_checkpoint = ""
  · simp only [hvenv, hname, hckex, hd, if_neg hnameNe, if_neg hck, if_neg hout,
      Bool.true_eq_false, if_false, bne_self_eq_false, Bool.false_eq_true,
      Bool.not_true, Bool.not_false, List.append_assoc]
    exact ⟨_, _, rfl, export_cmd_pairs_infix _ _ _ _ _⟩
  · have hdex := hdraft.resolve_left hd
    simp only [hvenv, hname, hckex, hdex, if_neg hnameNe, if_neg hck, if_neg hout,
      bne_iff_ne, ne_eq, hd, not_false_eq_true, if_true, if_pos,
      Bool.true_eq_false, if_false, Bool.not_true, Bool.not_false, List.append_assoc]
    exact ⟨_, _, rfl, export_cmd_pairs_infix _ _ _ _ _⟩

/-- C6 witness. -/
theorem run_export_builds_flag_pairs_witness :
    ∃ cmd ret,
      run_export envConfigured (.completed 0)
          { adapter_name := "my_adapter", checkpoint := "/ck",
            draft_checkpoint := "", output_dir := "/out",
            author := "3P developer", description := "" } = .ran cmd ret ∧
        ["--adapter-name", "my_adapter"] <:+: cmd ∧
        ["--checkpoint", showPath (envConfigured.resolve "/ck")] <:+: cmd ∧
        ["--output-dir", showPath (envConfigured.resolve "/out")] <:+: cmd :=
  run_export_builds_flag_pairs envConfigured (.completed 0) _ "/tk"
    (by rfl) (by decide) (by decide) (by decide) (by decide) (by decide)
    (Or.inl rfl)

/-- C10: refuted as stated.  The adapter name `"abc\n"` contains a
character (`'\n'`) outside letters, digits and underscore, yet
`_validate_adapter_name` accepts it — Python's `$` matches before a
trailing newline, so `re.match(r"^\w+$", "abc\n")` succeeds — and
`run_export` constructs and runs the export command for it, contrary to
the code's own error message ("must contain only letters, numbers, and
underscores"). -/
theorem run_export_accepts_trailing_newline_name :
    (isWordChar '\n' = false ∧ '\n' ∈ "abc\n".data ∧
      _validate_adapter_name "abc\n" = true) ∧
    run_export envConfigured (.completed 0)
        { adapter_name := "abc\n", checkpoint := "/ck",
          draft_checkpoint := "", output_dir := "/out",
          author := "3P developer", description := "" } =
      .ran ["/tk/venv/bin/python", "-m", "export.export_fmadapter",
        "--adapter-name", "abc\n", "--checkpoint", "/ck",
        "--output-dir", "/out", "--author", "3P developer"] (.int 0) :=
  ⟨⟨rfl, by decide, rfl⟩, rfl⟩

/-- The `generate` arguments as argparse populates them when only
`--prompt` is given (all generation options have defaults). -/
def genArgsDefault : GenerateArgs :=
  { prompt := "hello", checkpoint := "", draft_checkpoint := ""
    precision := "bf16-mixed", temperature := some "1.0"
    top_k := some "50", max_new_tokens := some "50"
    batch_size := some "1", compile_model := false
    num_draft_tokens := some "5" }

/-- C1: refuted on the unconfigured-toolkit path.  With no toolkit
configured, `run_generate` prints an error and returns `None`; `main`
then executes `sys.exit(None)`, which terminates the process with exit
status 0, not a non-zero status. -/
theorem generate_unconfigured_exit_status_zero :
    get_toolkit_path envUnconfigured.cfg = Option.none ∧
      retvalOf (run_generate envUnconfigured (.completed 0) genArgsDefault) =
        PyVal.none ∧
      main_generate envUnconfigured (.completed 0) genArgsDefault = 0 :=
  ⟨rfl, rfl, rfl⟩

/-- `trainFinish` removes nothing when the checkpoint directory was not
created by this invocation. -/
theorem trainFinish_not_created_removed (args : TrainArgs) (sp : SubprocOutcome)
    (vp td : FPath) (ed : Option FPath) (cd : FPath) :
    (trainFinish args sp vp td ed cd false).removed = Option.none := by
  unfold trainFinish
  cases sp <;> (try rfl)
  case completed rc => by_cases h : rc = 0 <;> simp [h]

/-- In custom mode with a pre-existing checkpoint directory,
`run_train_adapter` never removes it. -/
theorem train_preexisting_dir_not_removed (env : Env) (ts : String)
    (sp : SubprocOutcome) (args : TrainArgs)
    (hdemo : args.demo = false)
    (hexist : env.fs.pathExists (env.resolve args.checkpoint_dir) = true) :
    (run_train_adapter env ts sp args).removed = Option.none := by
  unfold run_train_adapter
  by_cases h1 : args.epochs < 1 ∨ args.epochs > 100
  · rw [if_pos h1]; rfl
  · rw [if_neg h1]
    by_cases h2 : args.learning_rate ≤ 0
    · rw [if_pos h2]; rfl
    · rw [if_neg h2]
      by_cases h3 : args.batch_size < 1 ∨ args.batch_size > 128
      · rw [if_pos h3]; rfl
      · rw [if_neg h3]
        by_cases h4 : args.warmup_epochs < 0 ∨ args.warmup_epochs > args.epochs
        · rw [if_pos h4]; rfl
        · rw [if_neg h4]
          cases htk : get_toolkit_path env.cfg with
          | none => rfl
          | some tkStr =>
            dsimp only
            by_cases hv : env.fs.pathExists (parsePath tkStr ++ ["venv", "bin", "python"]) = false
            · rw [if_pos hv]; rfl
            · rw [if_neg hv, if_neg (show ¬(args.demo = true) by simp [hdemo])]
              by_cases ht1 : args.train_data = ""
              · rw [if_pos ht1]; rfl
              · rw [if_neg ht1]
                by_cases ht2 : args.checkpoint_dir = ""
                · rw [if_pos ht2]; rfl
                · rw [if_neg ht2]
                  by_cases ht3 : env.fs.pathExists (env.resolve args.train_data) = false
                  · rw [if_pos ht3]; rfl
                  · rw [if_neg ht3]
                    by_cases ht4 : env.fs.isFile (env.resolve args.train_data) = false ∨
                      env.fs.readable (env.resolve args.train_data) = false
                    · rw [if_pos ht4]; rfl
                    · rw [if_neg ht4]
                      by_cases he : (args.eval_data != "") = true
                      · rw [if_pos he]
                        dsimp only
                        by_cases hm : (!(env.fs.mkdirp (env.resolve args.checkpoint_dir)).pathExists
                            (env.resolve args.eval_data)) = true
                        · rw [if_pos hm]; rfl
                        · rw [if_neg hm]
                          by_cases hu : (!(env.fs.mkdirp (env.resolve args.checkpoint_dir)).isFile
                                (env.resolve args.eval_data) ||
                              !(env.fs.mkdirp (env.resolve args.checkpoint_dir)).readable
                                (env.resolve args.eval_data)) = true
                          · rw [if_pos hu]; rfl
                          · rw [if_neg hu, hexist]
                            exact trainFinish_not_created_removed args sp _ _ _ _
                      · rw [if_neg he]
                        dsimp only
                        rw [if_neg Bool.false_ne_true, if_neg Bool.false_ne_true, hexist]
                        exact trainFinish_not_created_removed args sp _ _ _ _

/-- C7: on a failing training subprocess the checkpoint directory is
removed only when this invocation created it — demo mode, or custom
mode where the resolved `--checkpoint-dir` did not already exist; a
directory that existed before the command ran is never removed. -/
theorem train_cleanup_only_for_created_dir (env : Env) (ts : String)
    (sp : SubprocOutcome) (args : TrainArgs) :
    (args.demo = false →
        env.fs.pathExists (env.resolve args.checkpoint_dir) = true →
        (run_train_adapter env ts sp args).removed = Option.none) ∧
      ∀ p, (run_train_adapter env ts sp args).removed = some p →
        (args.demo = true ∨
          env.fs.pathExists (env.resolve args.checkpoint_dir) = false) := by
  refine ⟨train_preexisting_dir_not_removed env ts sp args, fun p hp => ?_⟩
  by_cases hd : args.demo = true
  · exact Or.inl hd
  · by_cases he : env.fs.pathExists (env.resolve args.checkpoint_dir) = true
    · rw [train_preexisting_dir_not_removed env ts sp args (by simpa using hd) he] at hp
      exact absurd hp (by simp)
    · exact Or.inr (by simpa using he)

/-- A toolkit with venv, a readable training file `/train.jsonl` and a
pre-existing checkpoint directory `/ckpts`. -/
def fsTrain : FS :=
  fsOf [["tk"], ["tk", "venv"], ["tk", "venv", "bin"], ["ckpts"]]
    [["tk", "venv", "bin", "python"], ["train.jsonl"]]

/-- Environment for the training witness. -/
def envTrain : Env :=
  { cfg := .valid [("toolkit_path", Json.str "/tk")]
    fs := fsTrain
    resolve := parsePath }

/-- The `train-adapter` arguments for a custom run with argparse
defaults for the hyperparameters. -/
def trainArgsCustom : TrainArgs :=
  { demo := false, train_data := "/train.jsonl", eval_data := ""
    checkpoint_dir := "/ckpts", epochs := 2, learning_rate := 1/1000
    warmup_epochs := 1, batch_size := 4
    gradient_accumulation_steps := some "1"
    activation_checkpointing := false, precision := "bf16-mixed"
    compile_model := false, weight_decay := some "0.01"
    clip_grad_norm := some "1.0", max_sequence_length := Option.none
    fixed_sized_sequences := false, pack_sequences := false
    loss_update_frequency := some "3", checkpoint_frequency := some "1" }

/-- C7 witness: the pre-existing `/ckpts` survives a failing run. -/
theorem train_cleanup_only_for_created_dir_witness :
    (run_train_adapter envTrain "20260101_000000" (.completed 1)
      trainArgsCustom).removed = Option.none :=
  (train_cleanup_only_for_created_dir envTrain "20260101_000000" (.completed 1)
    trainArgsCustom).1 (by rfl) (by decide)

end AdapterStudio
